import Mathlib

/-!
Verification development for the Excel Analytics platform, covering the
spreadsheet ingestion and chart/insight derivation pipeline:

* the chart data transformer `processChartData` and the insight generator
  `generateInsights` (backend analytics route),
* the upload-time workbook parsing in the files route (`parseSheet`,
  `ingestFile`),
* the worksheet data reader (`getWorksheetData`),
* the analytics record read/update handlers (`readAnalytics`,
  `updateAnalytics`) and the chart creation flow (`createChart`).

Modelling conventions:

* JavaScript numbers are modelled by the rationals `ℚ` (exact arithmetic in
  place of IEEE doubles).
* A worksheet row produced by `sheet_to_json` is a `Record`: an ordered
  association list from field name to `CellValue`; `row[k]` is `Option`-valued
  lookup (`none` models an absent field, i.e. JS `undefined`).
* A JS object used as a dictionary (the pie-chart aggregation accumulator) is
  modelled as an association list keyed by the stringified cell value —
  property keys are strings (`ToPropertyKey` applies `ToString`, modelled by
  `renderCell`) — built in property-creation order; `Object.keys` and
  `Object.values` enumerate array-index keys (canonical numerals below
  `2^32 - 1`) first in ascending numeric order and the remaining keys in
  creation order, modelled by `objectEntries`.
* `parseFloat(v) || d` is modelled by `toNumOr0` / `toNumOrIdx`: the parse
  yields the numeric value of a numeric cell or the longest numeric prefix of
  a string; on failure (`NaN`) and on a parse result of `0` (both falsy in JS)
  the fallback `d` is used.
* `Math.sqrt` appears in the source only in the outlier test
  `Math.abs(v - mean) > 2 * stdDev` with `stdDev = sqrt(variance)`; since both
  sides are nonnegative this is equivalent to the square-free comparison
  `(v - mean)^2 > 4 * variance`, which is how the test is embedded (keeping
  every definition inside `ℚ`).
-/

/-- A spreadsheet cell value as delivered by `sheet_to_json`: a number, a
string, or JS `null`. -/
inductive CellValue where
  | num (q : ℚ)
  | str (s : String)
  | null
deriving DecidableEq, Repr

/-- One worksheet row as a field-keyed record (ordered association list). -/
def Record := List (String × CellValue)

instance : DecidableEq Record := by
  unfold Record
  infer_instance

/-- `row[k]` in JS: the value stored under field `k`, or `none` (undefined)
when the field is absent. -/
def lookupCell (row : Record) (k : String) : Option CellValue :=
  match row with
  | [] => none
  | (k₁, v) :: rest => if k₁ = k then some v else lookupCell rest k

/-- Numeric value of a list of decimal digit characters. -/
def digitsVal (ds : List Char) : ℚ :=
  ds.foldl (fun a c => a * 10 + ((c.toNat - 48 : ℕ) : ℚ)) 0

/-- Longest-prefix decimal parse of a character list: optional integer part,
optional fraction part; `none` when no digit is found (the `NaN` outcome of
`parseFloat`).  Exponents and special forms are not exercised by this code
base and are not modelled. -/
def parseDecimal (l : List Char) : Option ℚ :=
  let intPart := l.takeWhile Char.isDigit
  let rest := l.drop intPart.length
  match rest with
  | '.' :: rest2 =>
      let fracPart := rest2.takeWhile Char.isDigit
      if intPart.isEmpty ∧ fracPart.isEmpty then none
      else some (digitsVal intPart + digitsVal fracPart / (10 : ℚ) ^ fracPart.length)
  | _ => if intPart.isEmpty then none else some (digitsVal intPart)

/-- JS `parseFloat` on a string, modelled over `ℚ`: optional sign followed by
a longest-prefix decimal parse. -/
def parseFloatQ (s : String) : Option ℚ :=
  match s.toList with
  | '-' :: rest => (parseDecimal rest).map (fun q => -q)
  | '+' :: rest => parseDecimal rest
  | l => parseDecimal l

/-- `parseFloat(v)` on a cell value: numbers pass through, strings get a
prefix parse, `null`/missing parse to `NaN` (`none`). -/
def parseCell : Option CellValue → Option ℚ
  | some (CellValue.num q) => some q
  | some (CellValue.str s) => parseFloatQ s
  | some CellValue.null => none
  | none => none

/-- `parseFloat(v) || 0`: the parsed number, or `0` on parse failure.  (A
parse result of `0` is falsy in JS, but `0 || 0 = 0`, so the fallback is
invisible here.) -/
def toNumOr0 (v : Option CellValue) : ℚ :=
  (parseCell v).getD 0

/-- `parseFloat(v) || idx`: the parsed number when it is nonzero, else the
fallback index — both `NaN` and `0` are falsy in JS, so a cell that parses to
`0` also falls back. -/
def toNumOrIdx (v : Option CellValue) (idx : ℕ) : ℚ :=
  match parseCell v with
  | some q => if q = 0 then (idx : ℚ) else q
  | none => (idx : ℚ)

/-- How a raw cell value is rendered inside a JS template literal.  Numeric
rendering is modelled exactly for integral values (the only numeric values the
verified claims exercise). -/
def renderCell : Option CellValue → String
  | some (CellValue.num q) => if q.den = 1 then toString q.num else toString q
  | some (CellValue.str s) => s
  | some CellValue.null => "null"
  | none => "undefined"

/-- An axis selection from the request body: source column plus an optional
display label (absent or empty label falls back to the column name). -/
structure Axis where
  column : String
  label : Option String
deriving DecidableEq, Repr

/-- `axis.label || axis.column` (empty string is falsy). -/
def axisDisplay (a : Axis) : String :=
  match a.label with
  | some l => if l = "" then a.column else l
  | none => a.column

/-- One value inside `datasets[0].data`: a plain number, or an `{x, y, z}`
triple for the 3-dimensional variants. -/
inductive DataVal where
  | scalar (q : ℚ)
  | point3 (x y z : ℚ)
deriving DecidableEq, Repr

/-- One entry of `chartData.datasets`. -/
structure Dataset where
  label : String
  data : List DataVal
  backgroundColor : List String
  borderColor : String
  borderWidth : ℕ
deriving DecidableEq, Repr

/-- The chart-library-agnostic output structure of the transformer.  Labels
are raw cell values (`none` for an absent field). -/
structure ChartData where
  labels : List (Option CellValue)
  datasets : List Dataset
deriving DecidableEq, Repr

/-- `colors?.[0] || '#3498db'`. -/
def borderColorOf (colors : Option (List String)) : String :=
  match colors with
  | some (c :: _) => if c = "" then "#3498db" else c
  | _ => "#3498db"

/-- The ten-color default palette substituted for pie/doughnut charts when no
explicit color list is supplied. -/
def defaultPalette10 : List String :=
  ["#3498db", "#e74c3c", "#2ecc71", "#f39c12", "#9b59b6",
   "#1abc9c", "#34495e", "#e67e22", "#95a5a6", "#9c88ff"]

/-- `chartData.datasets[0].data = d` (the source always constructs a
one-element dataset list before this assignment). -/
def setData0 (cd : ChartData) (d : List DataVal) : ChartData :=
  { cd with
    datasets :=
      match cd.datasets with
      | ds :: rest => { ds with data := d } :: rest
      | [] => [] }

/-- `chartData.datasets[0].backgroundColor = b`. -/
def setBackground0 (cd : ChartData) (b : List String) : ChartData :=
  { cd with
    datasets :=
      match cd.datasets with
      | ds :: rest => { ds with backgroundColor := b } :: rest
      | [] => [] }

/-- `aggregated[key] = (aggregated[key] || 0) + value` on the property list
of a plain JS object: add `q` to the entry for `k`, appending a fresh entry
in creation order when `k` is new.  Property keys are strings — the raw cell
value has already been converted by `ToPropertyKey`/`ToString` at the call
site. -/
def addToAgg (agg : List (String × ℚ)) (k : String) (q : ℚ) :
    List (String × ℚ) :=
  match agg with
  | [] => [(k, q)]
  | (k₁, v₁) :: rest =>
      if k₁ = k then (k₁, v₁ + q) :: rest else (k₁, v₁) :: addToAgg rest k q

/-- The pie/doughnut aggregation loop: group rows by the X-column value
converted to a property-key string (so the number `1` and the string `"1"`
share a group), summing the coerced Y-column values of each group.  The
resulting list is in property-creation order; enumeration order is applied by
`objectEntries` when the object is read back. -/
def aggregate (data : List Record) (xc yc : String) : List (String × ℚ) :=
  data.foldl (fun agg row =>
    addToAgg agg (renderCell (lookupCell row xc)) (toNumOr0 (lookupCell row yc))) []

/-- Numeric value of a decimal digit string (used for array-index keys). -/
def digitsToNat (ds : List Char) : ℕ :=
  ds.foldl (fun a c => a * 10 + (c.toNat - 48)) 0

/-- Whether a property key is an array index in the sense of the ECMAScript
specification: a canonical decimal numeral (no leading zero except `"0"`
itself) whose value is below `2^32 - 1`. -/
def isArrayIndexKey (s : String) : Bool :=
  (match s.toList with
   | [] => false
   | ['0'] => true
   | '0' :: _ => false
   | cs => cs.all Char.isDigit) && decide (digitsToNat s.toList < 4294967295)

/-- The numeric value by which array-index keys are ordered. -/
def keyIndexValue (s : String) : ℕ :=
  digitsToNat s.toList

/-- Insert one entry into a list of array-index entries kept in ascending
numeric key order. -/
def insertByIndex (e : String × ℚ) : List (String × ℚ) → List (String × ℚ)
  | [] => [e]
  | f :: rest =>
      if keyIndexValue e.1 ≤ keyIndexValue f.1 then e :: f :: rest
      else f :: insertByIndex e rest

/-- Sort entries by ascending numeric key value (the keys of a JS object are
distinct, so no tie-breaking is involved). -/
def sortByIndex : List (String × ℚ) → List (String × ℚ)
  | [] => []
  | e :: rest => insertByIndex e (sortByIndex rest)

/-- The own-property enumeration order used by `Object.keys` and
`Object.values`: array-index keys first in ascending numeric order, then the
remaining string keys in property-creation order. -/
def objectEntries (agg : List (String × ℚ)) : List (String × ℚ) :=
  sortByIndex (agg.filter (fun e => isArrayIndexKey e.1))
    ++ agg.filter (fun e => !isArrayIndexKey e.1)

/-- `processChartData(data, chartType, xAxis, yAxis, zAxis, colors)`: builds
the default labels/series, then replaces the series values with `{x, y, z}`
triples when a Z-axis with a column name is present, then (for `pie` and
`doughnut`) replaces labels and values with the grouped aggregation. -/
def processChartData (data : List Record) (chartType : String) (xAxis yAxis : Axis)
    (zAxis : Option Axis) (colors : Option (List String)) : ChartData :=
  let labels := data.map (fun row => lookupCell row xAxis.column)
  let yData := data.map (fun row => toNumOr0 (lookupCell row yAxis.column))
  let base : ChartData :=
    { labels := labels
      datasets :=
        [{ label := axisDisplay yAxis
           data := yData.map DataVal.scalar
           backgroundColor := colors.getD ["#3498db"]
           borderColor := borderColorOf colors
           borderWidth := 2 }] }
  let with3d : ChartData :=
    match zAxis with
    | some z =>
        if z.column = "" then base
        else
          let zData := data.map (fun row => toNumOr0 (lookupCell row z.column))
          setData0 base
            (data.enum.map (fun p =>
              DataVal.point3 (toNumOrIdx (lookupCell p.2 xAxis.column) p.1)
                (yData.getD p.1 0) (zData.getD p.1 0)))
    | none => base
  if chartType = "pie" ∨ chartType = "doughnut" then
    let agg := aggregate data xAxis.column yAxis.column
    let entries := objectEntries agg
    let withLabels := { with3d with labels := entries.map (fun e => some (CellValue.str e.1)) }
    let withData := setData0 withLabels (entries.map (fun e => DataVal.scalar e.2))
    setBackground0 withData (colors.getD defaultPalette10)
  else with3d

/-- The insight structure attached to an analytics record. -/
structure Insights where
  summary : String
  trends : List String
  correlations : List String
  outliers : List String
  aiGenerated : Bool
deriving DecidableEq, Repr

/-- `q.toFixed(2)`: round to two decimal places (ties toward the larger
value, as specified for `Number.prototype.toFixed`) and render. -/
def qToFixed2 (q : ℚ) : String :=
  let n : ℤ := Int.floor (q * 100 + 1 / 2)
  let sign := if n < 0 then "-" else ""
  let m : ℕ := n.natAbs
  let frac := m % 100
  sign ++ toString (m / 100) ++ "." ++ (if frac < 10 then "0" ++ toString frac else toString frac)

/-- `Math.max(...ys)` over a nonempty value list (the caller rejects empty
worksheets before insights are generated). -/
def listMax : List ℚ → ℚ
  | [] => 0
  | v :: vs => vs.foldl max v

/-- `Math.min(...ys)` over a nonempty value list. -/
def listMin : List ℚ → ℚ
  | [] => 0
  | v :: vs => vs.foldl min v

/-- `generateInsights(data, xAxis, yAxis, zAxis)`: summary sentence, one
trend classification (when at least two records exist), and the list of
outlier rows rendered as `"<X-value>: <Y-value>"`.  The `zAxis` argument is
accepted and unused, as in the source. -/
def generateInsights (data : List Record) (xAxis yAxis : Axis) (zAxis : Option Axis) :
    Insights :=
  let _ := zAxis
  let yValues := data.map (fun row => toNumOr0 (lookupCell row yAxis.column))
  let mean := yValues.foldl (· + ·) 0 / (yValues.length : ℚ)
  let maxV := listMax yValues
  let minV := listMin yValues
  let summary :=
    "Dataset contains " ++ toString data.length ++ " records. " ++ yAxis.column ++
      " ranges from " ++ qToFixed2 minV ++ " to " ++ qToFixed2 maxV ++
      " with an average of " ++ qToFixed2 mean ++ "."
  let trends :=
    if 1 < yValues.length then
      let firstHalf := yValues.take (yValues.length / 2)
      let secondHalf := yValues.drop (yValues.length / 2)
      let firstAvg := firstHalf.foldl (· + ·) 0 / (firstHalf.length : ℚ)
      let secondAvg := secondHalf.foldl (· + ·) 0 / (secondHalf.length : ℚ)
      if firstAvg * (11 / 10) < secondAvg then ["Upward trend detected in the data"]
      else if secondAvg < firstAvg * (9 / 10) then ["Downward trend detected in the data"]
      else ["Relatively stable trend in the data"]
    else []
  let variance := yValues.foldl (fun s v => s + (v - mean) ^ 2) 0 / (yValues.length : ℚ)
  let outlierRows :=
    ((data.zip yValues).filter (fun p => decide (4 * variance < (p.2 - mean) ^ 2))).map Prod.fst
  let outliers :=
    if outlierRows.length > 0 then
      outlierRows.map (fun row =>
        renderCell (lookupCell row xAxis.column) ++ ": " ++ renderCell (lookupCell row yAxis.column))
    else []
  { summary := summary, trends := trends, correlations := [], outliers := outliers,
    aiGenerated := false }

/-! ## Workbook parsing at upload time (files route) -/

/-- A decoded `!ref` cell range: start/end row and column (0-based,
inclusive), as produced by `XLSX.utils.decode_range`. -/
structure CellRange where
  sr : ℕ
  sc : ℕ
  er : ℕ
  ec : ℕ
deriving DecidableEq, Repr

/-- A raw worksheet: optional occupied range (`!ref`) and the occupied cells,
addressed by (row, column). -/
structure Sheet where
  ref : Option CellRange
  cells : List ((ℕ × ℕ) × CellValue)
deriving DecidableEq, Repr

/-- `XLSX.utils.decode_range(worksheet['!ref'] || 'A1:A1')`: the recorded
range, defaulting to the single cell A1. -/
def decodeRange (s : Sheet) : CellRange :=
  s.ref.getD ⟨0, 0, 0, 0⟩

/-- The lookup loop behind `cellAt`. -/
def findCell (cells : List ((ℕ × ℕ) × CellValue)) (r c : ℕ) : Option CellValue :=
  match cells with
  | [] => none
  | (a, v) :: rest => if a = (r, c) then some v else findCell rest r c

/-- The cell stored at (row, column), if any. -/
def cellAt (s : Sheet) (r c : ℕ) : Option CellValue :=
  findCell s.cells r c

/-- The per-worksheet summary persisted on the file record.  Header cells
keep their raw value; a synthesized header is a string. -/
structure WorksheetSummary where
  name : String
  rowCount : ℕ
  columnCount : ℕ
  columns : List CellValue
deriving DecidableEq, Repr

/-- The header-extraction loop: for each column position of the range, the
first-row cell value if present, else the placeholder
`Column {1-based column index}`. -/
def sheetHeaders (s : Sheet) : List CellValue :=
  let r := decodeRange s
  (List.range (r.ec + 1 - r.sc)).map (fun i =>
    match cellAt s r.sr (r.sc + i) with
    | some v => v
    | none => CellValue.str ("Column " ++ toString (r.sc + i + 1)))

/-- Summarizing one sheet at upload time: counts from the inclusive range
bounds, headers from the first row of the range. -/
def parseSheet (name : String) (s : Sheet) : WorksheetSummary :=
  let r := decodeRange s
  { name := name
    rowCount := r.er - r.sr + 1
    columnCount := r.ec - r.sc + 1
    columns := sheetHeaders s }

/-- The processing status of an uploaded file. -/
inductive FileStatus where
  | processing
  | completed
  | error
deriving DecidableEq, Repr

/-- The aggregate metadata block set on successful ingestion.
`totalColumns` is `Math.max` over the per-sheet column counts, which is
undefined (`-Infinity`) for a workbook without sheets — modelled as `none`. -/
structure FileMetadata where
  totalRows : ℕ
  totalColumns : Option ℕ
  worksheetCount : ℕ
deriving DecidableEq, Repr

/-- The fields of the persisted file record that the ingestion pipeline
touches (identity, storage and ownership fields are owned by external
collaborators and omitted). -/
structure FileRecord where
  status : FileStatus
  processingError : Option String
  worksheets : List WorksheetSummary
  metadata : Option FileMetadata
deriving DecidableEq, Repr

/-- A freshly constructed file record, before Excel processing. -/
def freshFileRecord : FileRecord :=
  { status := FileStatus.processing
    processingError := none
    worksheets := []
    metadata := none }

/-- Mapping the summary extraction over the workbook sheets in file order. -/
def parseWorkbook (wb : List (String × Sheet)) : List WorksheetSummary :=
  wb.map (fun p => parseSheet p.1 p.2)

/-- The upload handler body around the `try`/`catch`: `XLSX.readFile` either
yields a decoded workbook (`Except.ok`) or throws (`Except.error` with the
thrown message); on success the summaries, metadata and `completed` status
are recorded, on failure the record moves to `error` with the message. -/
def ingestFile (base : FileRecord) (readResult : Except String (List (String × Sheet))) :
    FileRecord :=
  match readResult with
  | Except.ok wb =>
      let ws := parseWorkbook wb
      { base with
        worksheets := ws
        metadata := some
          { totalRows := (ws.map (fun w => w.rowCount)).foldl (· + ·) 0
            totalColumns := (ws.map (fun w => w.columnCount)).max?
            worksheetCount := ws.length }
        status := FileStatus.completed }
  | Except.error msg =>
      { base with status := FileStatus.error, processingError := some msg }

/-! ## Worksheet data reader (files route, GET data endpoint) -/

/-- The workbook as seen through `sheet_to_json`: each sheet name paired with
its rows-as-records.  (The row-to-record conversion itself is performed by
the external xlsx library.) -/
structure DataWorkbook where
  sheets : List (String × List Record)

/-- The sheet names in file order. -/
def DataWorkbook.sheetNames (wb : DataWorkbook) : List String :=
  wb.sheets.map Prod.fst

/-- `workbook.Sheets[name]`: the records of the first sheet carrying `name`. -/
def lookupSheet (sheets : List (String × List Record)) (n : String) : Option (List Record) :=
  match sheets with
  | [] => none
  | (n₁, d) :: rest => if n₁ = n then some d else lookupSheet rest n

/-- The failure conditions of the worksheet data endpoint. -/
inductive ReadError where
  | fileNotReady
  | worksheetNotFound
deriving DecidableEq, Repr

/-- The successful payload of the worksheet data endpoint. -/
structure WorksheetData where
  worksheetName : String
  data : List Record
  rowCount : ℕ
  columns : List String
deriving DecidableEq

/-- `GET /api/files/:id/data/:worksheet` after the access check: reject when
the file is not `completed`, reject when the name matches no sheet, else
return the rows with `columns = Object.keys(data[0] || {})`. -/
def getWorksheetData (file : FileRecord) (wb : DataWorkbook) (name : String) :
    Except ReadError WorksheetData :=
  if file.status ≠ FileStatus.completed then Except.error ReadError.fileNotReady
  else if name ∉ wb.sheetNames then Except.error ReadError.worksheetNotFound
  else
    let data := (lookupSheet wb.sheets name).getD []
    Except.ok
      { worksheetName := name
        data := data
        rowCount := data.length
        columns := (data.headD []).map Prod.fst }

/-! ## Analytics records (analytics route) -/

/-- One entry of `shareSettings.sharedWith`. -/
structure SharedEntry where
  userId : String
  permission : String
deriving DecidableEq, Repr

/-- The share-settings block of an analytics record. -/
structure ShareSettings where
  isPublic : Bool
  sharedWith : List SharedEntry
deriving DecidableEq, Repr

/-- The persisted chart configuration. -/
structure ChartConfig where
  xAxis : Axis
  yAxis : Axis
  zAxis : Option Axis
  title : String
  colors : List String
deriving DecidableEq, Repr

/-- The persisted analytics record. -/
structure AnalyticsRecord where
  fileId : String
  userId : String
  chartType : String
  chartConfig : ChartConfig
  chartData : ChartData
  insights : Insights
  isBookmarked : Bool
  shareSettings : ShareSettings
  viewCount : ℕ
  downloadCount : ℕ
deriving DecidableEq

/-- `GET /api/analytics/:id` after the access check: increment the view
counter and save. -/
def readAnalytics (a : AnalyticsRecord) : AnalyticsRecord :=
  { a with viewCount := a.viewCount + 1 }

/-- The optional patch for the share-settings spread
`{ ...analytics.shareSettings, ...shareSettings }`. -/
structure SharePatch where
  isPublic : Option Bool
  sharedWith : Option (List SharedEntry)
deriving DecidableEq, Repr

/-- Object spread of a patch over the existing share settings. -/
def mergeShareSettings (old : ShareSettings) (p : SharePatch) : ShareSettings :=
  { isPublic := p.isPublic.getD old.isPublic
    sharedWith := p.sharedWith.getD old.sharedWith }

/-- The update request body of `PUT /api/analytics/:id`. -/
structure UpdateRequest where
  title : Option String
  colors : Option (List String)
  isBookmarked : Option Bool
  shareSettings : Option SharePatch
deriving DecidableEq, Repr

/-- `PUT /api/analytics/:id` after the ownership check: conditionally apply
title (`if (title)` — absent and empty are falsy), colors (an array is always
truthy), bookmark flag (`typeof isBookmarked === 'boolean'`), and the
share-settings spread. -/
def updateAnalytics (req : UpdateRequest) (a : AnalyticsRecord) : AnalyticsRecord :=
  let a1 :=
    match req.title with
    | some t => if t = "" then a else { a with chartConfig := { a.chartConfig with title := t } }
    | none => a
  let a2 :=
    match req.colors with
    | some cs => { a1 with chartConfig := { a1.chartConfig with colors := cs } }
    | none => a1
  let a3 :=
    match req.isBookmarked with
    | some b => { a2 with isBookmarked := b }
    | none => a2
  match req.shareSettings with
  | some p => { a3 with shareSettings := mergeShareSettings a3.shareSettings p }
  | none => a3

/-! ## Chart creation (analytics route, POST create) -/

/-- The request body of `POST /api/analytics/create` (file reference and
caller identity factored out). -/
structure ChartRequest where
  chartType : String
  xAxis : Axis
  yAxis : Axis
  zAxis : Option Axis
  title : Option String
  colors : Option (List String)
  worksheetName : Option String
deriving Repr

/-- The five-color default palette stored when no colors are supplied. -/
def defaultPalette5 : List String :=
  ["#3498db", "#e74c3c", "#2ecc71", "#f39c12", "#9b59b6"]

/-- The failure conditions of chart creation (after the existence and access
checks): `fileNotReady` (file not processed), `sheetMissing` (the resolved
sheet name denotes no sheet, which in the source throws inside
`sheet_to_json` and surfaces as an internal error), `noDataFound` (empty
worksheet), `columnNotFound` naming the missing column. -/
inductive CreateError where
  | fileNotReady
  | sheetMissing
  | noDataFound
  | columnNotFound (c : String)
deriving DecidableEq, Repr

/-- `POST /api/analytics/create` after the existence/access checks: status
check, sheet resolution (`worksheetName || workbook.SheetNames[0]`), empty
data check, column validation against `Object.keys(data[0])`, then transform,
insights, and record construction. -/
def createChart (file : FileRecord) (wb : DataWorkbook) (fileId userId : String)
    (req : ChartRequest) : Except CreateError AnalyticsRecord :=
  if file.status ≠ FileStatus.completed then Except.error CreateError.fileNotReady
  else
    let sheetName :=
      match req.worksheetName with
      | some n => if n = "" then wb.sheetNames.headD "" else n
      | none => wb.sheetNames.headD ""
    match lookupSheet wb.sheets sheetName with
    | none => Except.error CreateError.sheetMissing
    | some data =>
      if data.length = 0 then Except.error CreateError.noDataFound
      else
        let columns := (data.headD []).map Prod.fst
        if req.xAxis.column ∉ columns then
          Except.error (CreateError.columnNotFound req.xAxis.column)
        else if req.yAxis.column ∉ columns then
          Except.error (CreateError.columnNotFound req.yAxis.column)
        else
          let proceed : Except CreateError AnalyticsRecord :=
            Except.ok
              { fileId := fileId
                userId := userId
                chartType := req.chartType
                chartConfig :=
                  { xAxis := req.xAxis
                    yAxis := req.yAxis
                    zAxis := req.zAxis
                    title :=
                      match req.title with
                      | some t => if t = "" then req.chartType ++ " Chart" else t
                      | none => req.chartType ++ " Chart"
                    colors := req.colors.getD defaultPalette5 }
                chartData := processChartData data req.chartType req.xAxis req.yAxis req.zAxis req.colors
                insights := generateInsights data req.xAxis req.yAxis req.zAxis
                isBookmarked := false
                shareSettings := { isPublic := false, sharedWith := [] }
                viewCount := 0
                downloadCount := 0 }
          match req.zAxis with
          | some z =>
              if z.column ≠ "" ∧ z.column ∉ columns then
                Except.error (CreateError.columnNotFound z.column)
              else proceed
          | none => proceed

/-! ## Specification-side definitions

These render the wording of the specification (means, population variance,
group sums, first-seen key order) independently of the source's accumulator
loops; the claim theorems relate the embedded handlers to them. -/

/-- The coerced Y-column value sequence of a record list. -/
def yValuesOf (data : List Record) (yc : String) : List ℚ :=
  data.map (fun row => toNumOr0 (lookupCell row yc))

/-- Arithmetic mean of a value list. -/
def meanOf (l : List ℚ) : ℚ :=
  l.sum / (l.length : ℚ)

/-- Population variance of a value list. -/
def popVariance (l : List ℚ) : ℚ :=
  (l.map (fun v => (v - meanOf l) ^ 2)).sum / (l.length : ℚ)

/-- The value `v` deviates from the mean of `l` by more than two population
standard deviations, stated in squared form: since both sides of
`|v - mean| > 2 * sqrt(variance)` are nonnegative, that comparison holds
exactly when `(v - mean)^2 > 4 * variance`. -/
def isOutlierIn (l : List ℚ) (v : ℚ) : Prop :=
  4 * popVariance l < (v - meanOf l) ^ 2

instance (l : List ℚ) (v : ℚ) : Decidable (isOutlierIn l v) := by
  unfold isOutlierIn
  infer_instance

/-- The trend classification of the specification: split at the midpoint
(floor division), compare the half means with the 10% margins. -/
def trendClass (ys : List ℚ) : String :=
  let firstAvg := meanOf (ys.take (ys.length / 2))
  let secondAvg := meanOf (ys.drop (ys.length / 2))
  if firstAvg * (11 / 10) < secondAvg then "Upward trend detected in the data"
  else if secondAvg < firstAvg * (9 / 10) then "Downward trend detected in the data"
  else "Relatively stable trend in the data"

/-- The distinct elements of a list in first-seen order. -/
def dedupFirst {α : Type} [DecidableEq α] : List α → List α
  | [] => []
  | a :: as => a :: dedupFirst (as.filter (fun b => decide (b ≠ a)))
termination_by l => l.length
decreasing_by
  simp only [List.length_cons]
  exact Nat.lt_succ_of_le (List.length_filter_le _ _)

/-- The total coerced Y-value of the rows whose X-column value stringifies to
the property key `k`. -/
def groupSum (data : List Record) (xc yc : String) (k : String) : ℚ :=
  ((data.filter (fun r => decide (renderCell (lookupCell r xc) = k))).map
    (fun r => toNumOr0 (lookupCell r yc))).sum

/-- Sum of the plain numeric entries of a data series (an `{x, y, z}` triple
contributes nothing). -/
def scalarSum (l : List DataVal) : ℚ :=
  (l.map (fun d => match d with | DataVal.scalar q => q | DataVal.point3 _ _ _ => 0)).sum

/-! ## Helper lemmas -/

lemma foldl_add_eq_sum (l : List ℚ) (a : ℚ) : l.foldl (· + ·) a = a + l.sum := by
  induction l generalizing a with
  | nil => simp
  | cons x xs ih => simp [ih, List.sum_cons]; ring

lemma foldl_add_map_eq_sum (f : ℚ → ℚ) (l : List ℚ) (a : ℚ) :
    l.foldl (fun s v => s + f v) a = a + (l.map f).sum := by
  induction l generalizing a with
  | nil => simp
  | cons x xs ih => simp [ih, List.sum_cons]; ring

lemma zip_self_map (l : List Record) (f : Record → ℚ) :
    l.zip (l.map f) = l.map (fun r => (r, f r)) := by
  have h := List.zip_map' (fun r : Record => r) f l
  simpa using h

lemma zip_map_filter_fst (l : List Record) (f : Record → ℚ) (p : ℚ → Bool) :
    (((l.zip (l.map f)).filter (fun q => p q.2)).map Prod.fst) =
      l.filter (fun r => p (f r)) := by
  induction l with
  | nil => rfl
  | cons r rs ih =>
    simp only [List.map_cons, List.zip_cons_cons, List.filter_cons]
    by_cases h : p (f r) = true
    · simpa [h] using ih
    · simpa [h] using ih

lemma map_enum_point3_getD (l : List Record) (f g : Record → ℚ) (x : ℕ → Record → ℚ) :
    l.enum.map (fun p =>
        DataVal.point3 (x p.1 p.2) ((l.map f).getD p.1 0) ((l.map g).getD p.1 0)) =
      l.enum.map (fun p => DataVal.point3 (x p.1 p.2) (f p.2) (g p.2)) := by
  apply List.map_congr_left
  intro p hp
  have hget : l.get? p.1 = some p.2 := List.mem_enum_iff_get?.mp hp
  have hf : (l.map f).getD p.1 0 = f p.2 := by
    show ((l.map f).get? p.1).getD 0 = f p.2
    rw [List.get?_map, hget]
    rfl
  have hg : (l.map g).getD p.1 0 = g p.2 := by
    show ((l.map g).get? p.1).getD 0 = g p.2
    rw [List.get?_map, hget]
    rfl
  rw [hf, hg]

lemma dedupFirst_cons {α : Type} [DecidableEq α] (a : α) (as : List α) :
    dedupFirst (a :: as) = a :: dedupFirst (as.filter (fun b => decide (b ≠ a))) := by
  rw [dedupFirst]

lemma mem_dedupFirst {α : Type} [DecidableEq α] (x : α) :
    ∀ (l : List α), x ∈ dedupFirst l ↔ x ∈ l
  | [] => by simp [dedupFirst]
  | a :: as => by
    rw [dedupFirst_cons]
    by_cases hx : x = a
    · subst hx
      simp
    · have := mem_dedupFirst x (as.filter (fun b => decide (b ≠ a)))
      simp only [List.mem_cons, this, List.mem_filter, hx, false_or]
      simp [hx]
termination_by l => l.length
decreasing_by
  simp only [List.length_cons]
  exact Nat.lt_succ_of_le (List.length_filter_le _ _)

lemma dedupFirst_nodup {α : Type} [DecidableEq α] :
    ∀ (l : List α), (dedupFirst l).Nodup
  | [] => by simp [dedupFirst]
  | a :: as => by
    rw [dedupFirst_cons]
    refine List.nodup_cons.mpr ⟨?_, dedupFirst_nodup _⟩
    intro hmem
    have := (mem_dedupFirst a _).mp hmem
    simp at this
termination_by l => l.length
decreasing_by
  simp only [List.length_cons]
  exact Nat.lt_succ_of_le (List.length_filter_le _ _)

lemma dedupFirst_toFinset {α : Type} [DecidableEq α] (l : List α) :
    (dedupFirst l).toFinset = l.toFinset := by
  ext x
  simp [List.mem_toFinset, mem_dedupFirst]

lemma dedupFirst_length_eq_card {α : Type} [DecidableEq α] (l : List α) :
    (dedupFirst l).length = l.toFinset.card := by
  rw [← dedupFirst_toFinset, List.toFinset_card_of_nodup (dedupFirst_nodup l)]

/-- One step of first-seen key accumulation: append `k` unless present. -/
def insertKey {α : Type} [DecidableEq α] (ks : List α) (k : α) : List α :=
  if k ∈ ks then ks else ks ++ [k]

lemma foldl_insert_dedup {α : Type} [DecidableEq α] (ks : List α) (acc : List α) :
    ks.foldl insertKey acc
      = acc ++ dedupFirst (ks.filter (fun k => decide (k ∉ acc))) := by
  induction ks generalizing acc with
  | nil => simp [dedupFirst]
  | cons k ks ih =>
    simp only [List.foldl_cons, List.filter_cons, insertKey]
    by_cases hk : k ∈ acc
    · rw [if_pos hk, ih]
      have hc : decide (k ∉ acc) = false := by simp [hk]
      rw [hc]
      simp
    · rw [if_neg hk, ih]
      have hc : decide (k ∉ acc) = true := by simp [hk]
      have hfil : (ks.filter (fun x => decide (x ∉ acc))).filter (fun x => decide (x ≠ k))
          = ks.filter (fun x => decide (x ∉ acc ++ [k])) := by
        rw [List.filter_filter]
        apply List.filter_congr
        intro x _
        by_cases h1 : x ∈ acc <;> by_cases h2 : x = k <;> simp [h1, h2]
      rw [hc, if_pos rfl, dedupFirst_cons, hfil]
      simp [List.append_assoc]

lemma addToAgg_keys (a : List (String × ℚ)) (k : String) (q : ℚ) :
    (addToAgg a k q).map Prod.fst =
      if k ∈ a.map Prod.fst then a.map Prod.fst else a.map Prod.fst ++ [k] := by
  induction a with
  | nil => simp [addToAgg]
  | cons p rest ih =>
    obtain ⟨k₁, v₁⟩ := p
    by_cases hk : k₁ = k
    · subst hk
      simp [addToAgg]
    · simp only [addToAgg, if_neg hk, List.map_cons, ih]
      have hiff : (k ∈ k₁ :: rest.map Prod.fst) ↔ (k ∈ rest.map Prod.fst) := by
        constructor
        · intro h
          rcases List.mem_cons.mp h with h | h
          · exact absurd h.symm hk
          · exact h
        · intro h
          exact List.mem_cons_of_mem _ h
      by_cases hmem : k ∈ rest.map Prod.fst
      · simp [hmem, hiff]
      · simp [hmem, hiff]

lemma addToAgg_snd_sum (a : List (String × ℚ)) (k : String) (q : ℚ) :
    ((addToAgg a k q).map Prod.snd).sum = (a.map Prod.snd).sum + q := by
  induction a with
  | nil => simp [addToAgg]
  | cons p rest ih =>
    obtain ⟨k₁, v₁⟩ := p
    by_cases hk : k₁ = k
    · subst hk
      simp [addToAgg, List.sum_cons]
      ring
    · simp [addToAgg, if_neg hk, List.sum_cons, ih]
      ring

/-- Association-list lookup with default `0`, mirroring
`aggregated[key] || 0`. -/
def lookVal (a : List (String × ℚ)) (k : String) : ℚ :=
  match a with
  | [] => 0
  | (k₁, v₁) :: rest => if k₁ = k then v₁ else lookVal rest k

lemma lookVal_addToAgg (a : List (String × ℚ)) (k k₀ : String) (q : ℚ) :
    lookVal (addToAgg a k₀ q) k = if k₀ = k then lookVal a k + q else lookVal a k := by
  induction a with
  | nil =>
    by_cases hk : k₀ = k <;> simp [addToAgg, lookVal, hk]
  | cons p rest ih =>
    obtain ⟨k₁, v₁⟩ := p
    by_cases h1 : k₁ = k₀
    · subst h1
      by_cases h2 : k₁ = k
      · subst h2
        simp [addToAgg, lookVal]
      · simp [addToAgg, lookVal, h2]
    · by_cases h2 : k₁ = k
      · subst h2
        have hne : ¬ k₀ = k₁ := fun h => h1 h.symm
        simp [addToAgg, if_neg h1, lookVal, hne]
      · simp [addToAgg, if_neg h1, lookVal, h2, ih]

lemma assoc_eq_keys_map (a : List (String × ℚ)) (h : (a.map Prod.fst).Nodup) :
    a = (a.map Prod.fst).map (fun k => (k, lookVal a k)) := by
  induction a with
  | nil => rfl
  | cons p rest ih =>
    obtain ⟨k₁, v₁⟩ := p
    simp only [List.map_cons, List.nodup_cons] at h
    simp only [List.map_cons]
    have hhead : lookVal ((k₁, v₁) :: rest) k₁ = v₁ := by simp [lookVal]
    rw [hhead]
    have htail : (rest.map Prod.fst).map (fun k => (k, lookVal ((k₁, v₁) :: rest) k))
        = (rest.map Prod.fst).map (fun k => (k, lookVal rest k)) := by
      apply List.map_congr_left
      intro k hk
      have hne : ¬ k₁ = k := fun he => h.1 (he ▸ hk)
      simp [lookVal, hne]
    rw [htail, ← ih h.2]

lemma groupSum_cons (r : Record) (rs : List Record) (xc yc : String) (k : String) :
    groupSum (r :: rs) xc yc k =
      (if renderCell (lookupCell r xc) = k then toNumOr0 (lookupCell r yc) else 0)
        + groupSum rs xc yc k := by
  by_cases h : renderCell (lookupCell r xc) = k
  · simp [groupSum, List.filter_cons, h, List.sum_cons]
  · simp [groupSum, List.filter_cons, h]

lemma agg_foldl_keys (xc yc : String) :
    ∀ (data : List Record) (a : List (String × ℚ)),
      ((data.foldl (fun agg row =>
          addToAgg agg (renderCell (lookupCell row xc)) (toNumOr0 (lookupCell row yc))) a).map Prod.fst)
        = (data.map (fun r => renderCell (lookupCell r xc))).foldl insertKey (a.map Prod.fst)
  | [], a => rfl
  | r :: rs, a => by
    simp only [List.foldl_cons, List.map_cons, insertKey]
    rw [agg_foldl_keys xc yc rs _, addToAgg_keys]

lemma aggregate_keys (data : List Record) (xc yc : String) :
    (aggregate data xc yc).map Prod.fst
      = dedupFirst (data.map (fun r => renderCell (lookupCell r xc))) := by
  rw [aggregate, agg_foldl_keys xc yc data []]
  simp only [List.map_nil]
  rw [foldl_insert_dedup]
  simp

lemma agg_foldl_lookVal (xc yc : String) (k : String) :
    ∀ (data : List Record) (a : List (String × ℚ)),
      lookVal (data.foldl (fun agg row =>
          addToAgg agg (renderCell (lookupCell row xc)) (toNumOr0 (lookupCell row yc))) a) k
        = lookVal a k + groupSum data xc yc k
  | [], a => by simp [groupSum]
  | r :: rs, a => by
    simp only [List.foldl_cons]
    rw [agg_foldl_lookVal xc yc k rs _, lookVal_addToAgg, groupSum_cons]
    by_cases h : renderCell (lookupCell r xc) = k
    · rw [if_pos h, if_pos h]
      ring
    · rw [if_neg h, if_neg h]
      ring

lemma aggregate_lookVal (data : List Record) (xc yc : String) (k : String) :
    lookVal (aggregate data xc yc) k = groupSum data xc yc k := by
  rw [aggregate, agg_foldl_lookVal xc yc k data []]
  simp [lookVal]

lemma agg_foldl_sum (xc yc : String) :
    ∀ (data : List Record) (a : List (String × ℚ)),
      (((data.foldl (fun agg row =>
          addToAgg agg (renderCell (lookupCell row xc)) (toNumOr0 (lookupCell row yc))) a).map Prod.snd).sum)
        = ((a.map Prod.snd).sum) + (yValuesOf data yc).sum
  | [], a => by simp [yValuesOf]
  | r :: rs, a => by
    simp only [List.foldl_cons]
    rw [agg_foldl_sum xc yc rs _, addToAgg_snd_sum]
    simp only [yValuesOf, List.map_cons, List.sum_cons]
    ring

lemma aggregate_sum (data : List Record) (xc yc : String) :
    ((aggregate data xc yc).map Prod.snd).sum = (yValuesOf data yc).sum := by
  rw [aggregate, agg_foldl_sum xc yc data []]
  simp

lemma aggregate_eq (data : List Record) (xc yc : String) :
    aggregate data xc yc =
      (dedupFirst (data.map (fun r => renderCell (lookupCell r xc)))).map
        (fun k => (k, groupSum data xc yc k)) := by
  have hkeys := aggregate_keys data xc yc
  have hnodup : ((aggregate data xc yc).map Prod.fst).Nodup := by
    rw [hkeys]
    exact dedupFirst_nodup _
  have hrecon := assoc_eq_keys_map _ hnodup
  rw [hrecon, hkeys]
  apply List.map_congr_left
  intro k _
  rw [aggregate_lookVal data xc yc k]

lemma insertByIndex_perm (e : String × ℚ) (l : List (String × ℚ)) :
    List.Perm (insertByIndex e l) (e :: l) := by
  induction l with
  | nil => exact List.Perm.refl _
  | cons f rest ih =>
    simp only [insertByIndex]
    by_cases h : keyIndexValue e.1 ≤ keyIndexValue f.1
    · rw [if_pos h]
    · rw [if_neg h]
      exact (ih.cons f).trans (List.Perm.swap e f rest)

lemma sortByIndex_perm (l : List (String × ℚ)) : List.Perm (sortByIndex l) l := by
  induction l with
  | nil => exact List.Perm.refl _
  | cons e rest ih =>
    simp only [sortByIndex]
    exact (insertByIndex_perm e (sortByIndex rest)).trans (ih.cons e)

lemma objectEntries_perm (l : List (String × ℚ)) : List.Perm (objectEntries l) l := by
  unfold objectEntries
  exact ((sortByIndex_perm _).append_right _).trans (List.filter_append_perm _ l)

lemma pie_processChartData (data : List Record) (chartType : String) (xAxis yAxis : Axis)
    (zAxis : Option Axis) (colors : Option (List String))
    (h : chartType = "pie" ∨ chartType = "doughnut") :
    processChartData data chartType xAxis yAxis zAxis colors =
      { labels := (objectEntries (aggregate data xAxis.column yAxis.column)).map
          (fun e => some (CellValue.str e.1))
        datasets :=
          [{ label := axisDisplay yAxis
             data := (objectEntries (aggregate data xAxis.column yAxis.column)).map
               (fun e => DataVal.scalar e.2)
             backgroundColor := colors.getD defaultPalette10
             borderColor := borderColorOf colors
             borderWidth := 2 }] } := by
  cases zAxis with
  | none => simp [processChartData, h, setData0, setBackground0]
  | some z =>
    by_cases hz : z.column = ""
    · simp [processChartData, h, hz, setData0, setBackground0]
    · simp [processChartData, h, hz, setData0, setBackground0]

/-- Two rows with the numeric X values `10` and `2`: both stringify to
array-index keys, which `Object.keys` enumerates in ascending numeric order,
not first-seen order. -/
def pieReorderRows : List Record :=
  [[("X", CellValue.num 10), ("Y", CellValue.num 1)],
   [("X", CellValue.num 2), ("Y", CellValue.num 3)]]

/-- Two rows whose X values are the number `1` and the string `"1"`: distinct
raw values with the same property-key string. -/
def pieMergeRows : List Record :=
  [[("X", CellValue.num 1), ("Y", CellValue.num 5)],
   [("X", CellValue.str "1"), ("Y", CellValue.num 7)]]

/-- Counterexample to C4 as stated.  First group: for X values `[10, 2]` the
labels come out as `["2", "10"]` with sums `[3, 1]` — array-index property
keys enumerate in ascending numeric order, although the record holding `10`
is seen first.  Second group: the number `1` and the string `"1"` stringify
to the same property key and merge into a single group with sum `12`,
although the raw X values are distinct — so the grouping is not by raw value
and the label count is not the number of distinct raw X values. -/
theorem pie_grouping_counterexample :
    ((processChartData pieReorderRows "pie" ⟨"X", none⟩ ⟨"Y", none⟩ none none).labels
        = [some (CellValue.str "2"), some (CellValue.str "10")]
      ∧ (processChartData pieReorderRows "pie" ⟨"X", none⟩ ⟨"Y", none⟩ none none).datasets.map
            (fun ds => ds.data) = [[DataVal.scalar 3, DataVal.scalar 1]]
      ∧ lookupCell (pieReorderRows.headD []) "X" = some (CellValue.num 10))
    ∧ ((processChartData pieMergeRows "pie" ⟨"X", none⟩ ⟨"Y", none⟩ none none).labels
        = [some (CellValue.str "1")]
      ∧ (processChartData pieMergeRows "pie" ⟨"X", none⟩ ⟨"Y", none⟩ none none).datasets.map
            (fun ds => ds.data) = [[DataVal.scalar 12]]
      ∧ lookupCell ((pieMergeRows.drop 1).headD []) "X" ≠ lookupCell (pieMergeRows.headD []) "X") := by
  have hr1 : renderCell (some (CellValue.num 1)) = "1" := by decide
  have hr1s : renderCell (some (CellValue.str "1")) = "1" := rfl
  have hr2 : renderCell (some (CellValue.num 2)) = "2" := by decide
  have hr10 : renderCell (some (CellValue.num 10)) = "10" := by decide
  have hord : objectEntries [("10", (1 : ℚ)), ("2", (3 : ℚ))] = [("2", 3), ("10", 1)] := by
    decide
  have hord1 : ∀ q : ℚ, objectEntries [("1", q)] = [("1", q)] := fun q => by
    simp [objectEntries, sortByIndex, insertByIndex, isArrayIndexKey, digitsToNat]
  refine ⟨⟨?_, ?_, ?_⟩, ⟨?_, ?_, ?_⟩⟩
  · simp [processChartData, pieReorderRows, aggregate, addToAgg, lookupCell, toNumOr0,
      parseCell, setData0, setBackground0, hr2, hr10, hord]
  · simp [processChartData, pieReorderRows, aggregate, addToAgg, lookupCell, toNumOr0,
      parseCell, setData0, setBackground0, hr2, hr10, hord]
  · simp [pieReorderRows, lookupCell]
  · simp [processChartData, pieMergeRows, aggregate, addToAgg, lookupCell, toNumOr0,
      parseCell, setData0, setBackground0, hr1, hr1s, hord1]
  · simp [processChartData, pieMergeRows, aggregate, addToAgg, lookupCell, toNumOr0,
      parseCell, setData0, setBackground0, hr1, hr1s, hord1]
    norm_num
  · simp [pieMergeRows, lookupCell]

/-- C4 (amended): for chart types `pie` and `doughnut` the transformer groups
the records by the X-column value converted to a property-key string (so the
number `1` and the string `"1"` share a group) and sums each group's coerced
Y-values (non-numeric contributing `0`): labels and values are read off one
table assigning each distinct key its group sum, listed in JS own-property
enumeration order — array-index keys (canonical numerals below `2^32 - 1`)
first in ascending numeric order, then the remaining keys in first-seen
order; the values of the single series sum to the total of all coerced
Y-values, and the number of labels equals the number of distinct stringified
X-values. -/
theorem pie_doughnut_grouping (data : List Record) (chartType : String) (xAxis yAxis : Axis)
    (zAxis : Option Axis) (colors : Option (List String))
    (h : chartType = "pie" ∨ chartType = "doughnut") :
    (processChartData data chartType xAxis yAxis zAxis colors).labels
        = (objectEntries ((dedupFirst (data.map (fun r => renderCell (lookupCell r xAxis.column)))).map
            (fun k => (k, groupSum data xAxis.column yAxis.column k)))).map
          (fun e => some (CellValue.str e.1))
    ∧ (processChartData data chartType xAxis yAxis zAxis colors).datasets.map
          (fun ds => ds.data)
        = [(objectEntries ((dedupFirst (data.map (fun r => renderCell (lookupCell r xAxis.column)))).map
            (fun k => (k, groupSum data xAxis.column yAxis.column k)))).map
            (fun e => DataVal.scalar e.2)]
    ∧ scalarSum ((processChartData data chartType xAxis yAxis zAxis colors).datasets.headD
          { label := "", data := [], backgroundColor := [], borderColor := "", borderWidth := 0 }).data
        = (yValuesOf data yAxis.column).sum
    ∧ (processChartData data chartType xAxis yAxis zAxis colors).labels.length
        = (data.map (fun r => renderCell (lookupCell r xAxis.column))).toFinset.card := by
  rw [pie_processChartData data chartType xAxis yAxis zAxis colors h]
  refine ⟨?_, ?_, ?_, ?_⟩
  · show (objectEntries (aggregate data xAxis.column yAxis.column)).map
        (fun e => some (CellValue.str e.1)) = _
    rw [aggregate_eq]
  · show [(objectEntries (aggregate data xAxis.column yAxis.column)).map
        (fun e => DataVal.scalar e.2)] = _
    rw [aggregate_eq]
  · show scalarSum ((objectEntries (aggregate data xAxis.column yAxis.column)).map
        (fun e => DataVal.scalar e.2)) = (yValuesOf data yAxis.column).sum
    rw [scalarSum, List.map_map]
    have hcomp : ((fun d => match d with | DataVal.scalar q => q | DataVal.point3 _ _ _ => 0)
        ∘ (fun e : String × ℚ => DataVal.scalar e.2)) = Prod.snd := by
      funext e
      rfl
    rw [hcomp, ((objectEntries_perm (aggregate data xAxis.column yAxis.column)).map Prod.snd).sum_eq,
      aggregate_sum]
  · show ((objectEntries (aggregate data xAxis.column yAxis.column)).map
        (fun e => some (CellValue.str e.1))).length
        = (data.map (fun r => renderCell (lookupCell r xAxis.column))).toFinset.card
    rw [List.length_map, (objectEntries_perm _).length_eq]
    have hlen : (aggregate data xAxis.column yAxis.column).length
        = ((aggregate data xAxis.column yAxis.column).map Prod.fst).length :=
      (List.length_map _ _).symm
    rw [hlen, aggregate_keys, dedupFirst_length_eq_card]

/-- The worked example of the specification: sheet rows
`[(East, 100), (West, 200), (East, 50)]`. -/
def pieExampleRows : List Record :=
  [[("Region", CellValue.str "East"), ("Revenue", CellValue.num 100)],
   [("Region", CellValue.str "West"), ("Revenue", CellValue.num 200)],
   [("Region", CellValue.str "East"), ("Revenue", CellValue.num 50)]]

/-- Witness for `pie_doughnut_grouping` at the specification's pie scenario:
the keys `East` and `West` are not array indices, so enumeration keeps their
first-seen order and the chart shows labels `[East, West]` with sums
`[150, 200]`. -/
theorem pie_doughnut_grouping_witness :
    ("pie" = "pie" ∨ "pie" = "doughnut")
    ∧ ((processChartData pieExampleRows "pie" ⟨"Region", none⟩ ⟨"Revenue", none⟩ none none).labels
          = (objectEntries ((dedupFirst (pieExampleRows.map (fun r => renderCell (lookupCell r "Region")))).map
              (fun k => (k, groupSum pieExampleRows "Region" "Revenue" k)))).map
            (fun e => some (CellValue.str e.1))
      ∧ (processChartData pieExampleRows "pie" ⟨"Region", none⟩ ⟨"Revenue", none⟩ none none).datasets.map
            (fun ds => ds.data)
          = [(objectEntries ((dedupFirst (pieExampleRows.map (fun r => renderCell (lookupCell r "Region")))).map
              (fun k => (k, groupSum pieExampleRows "Region" "Revenue" k)))).map
              (fun e => DataVal.scalar e.2)]
      ∧ scalarSum ((processChartData pieExampleRows "pie" ⟨"Region", none⟩ ⟨"Revenue", none⟩ none none).datasets.headD
            { label := "", data := [], backgroundColor := [], borderColor := "", borderWidth := 0 }).data
          = (yValuesOf pieExampleRows "Revenue").sum
      ∧ (processChartData pieExampleRows "pie" ⟨"Region", none⟩ ⟨"Revenue", none⟩ none none).labels.length
          = (pieExampleRows.map (fun r => renderCell (lookupCell r "Region"))).toFinset.card)
    ∧ (processChartData pieExampleRows "pie" ⟨"Region", none⟩ ⟨"Revenue", none⟩ none none).labels
        = [some (CellValue.str "East"), some (CellValue.str "West")]
    ∧ (processChartData pieExampleRows "pie" ⟨"Region", none⟩ ⟨"Revenue", none⟩ none none).datasets.map
          (fun ds => ds.data) = [[DataVal.scalar 150, DataVal.scalar 200]] :=
  ⟨Or.inl rfl,
   pie_doughnut_grouping pieExampleRows "pie" ⟨"Region", none⟩ ⟨"Revenue", none⟩ none none (Or.inl rfl),
   by
    simp [processChartData, pieExampleRows, aggregate, addToAgg, lookupCell, renderCell,
      toNumOr0, parseCell, setData0, setBackground0, objectEntries, sortByIndex, insertByIndex,
      isArrayIndexKey, digitsToNat],
   by
    simp [processChartData, pieExampleRows, aggregate, addToAgg, lookupCell, renderCell,
      toNumOr0, parseCell, setData0, setBackground0, objectEntries, sortByIndex, insertByIndex,
      isArrayIndexKey, digitsToNat]
    norm_num⟩

/-- C6: for chart types other than `pie`/`doughnut` with no Z-axis selection,
labels are the raw X-column values in record order (so there are as many
labels as records) and the single series carries the Y-axis display label,
the supplied colors, and the Y-column values coerced to numbers, where a
non-numeric string, a JS `null`, and a missing field all coerce to `0`
(coercion is total, so no `NaN` arises). -/
theorem default_transform (data : List Record) (chartType : String) (xAxis yAxis : Axis)
    (cs : List String) (h1 : chartType ≠ "pie") (h2 : chartType ≠ "doughnut") :
    (processChartData data chartType xAxis yAxis none (some cs)).labels
        = data.map (fun r => lookupCell r xAxis.column)
    ∧ (processChartData data chartType xAxis yAxis none (some cs)).labels.length = data.length
    ∧ (processChartData data chartType xAxis yAxis none (some cs)).datasets
        = [{ label := axisDisplay yAxis
             data := data.map (fun r => DataVal.scalar (toNumOr0 (lookupCell r yAxis.column)))
             backgroundColor := cs
             borderColor := borderColorOf (some cs)
             borderWidth := 2 }]
    ∧ toNumOr0 (some (CellValue.str "abc")) = 0
    ∧ toNumOr0 (some CellValue.null) = 0
    ∧ toNumOr0 none = 0 := by
  have hp : ¬(chartType = "pie" ∨ chartType = "doughnut") := fun h => h.elim h1 h2
  refine ⟨?_, ?_, ?_, ?_, ?_, ?_⟩
  · simp [processChartData, hp]
  · simp [processChartData, hp]
  · simp [processChartData, hp, List.map_map, Function.comp]
  · simp [toNumOr0, parseCell, parseFloatQ, parseDecimal]
  · rfl
  · rfl

/-- Rows exercising the coercion edge cases: a numeric Y, a non-numeric Y,
a `null` Y, and a missing Y field. -/
def coercionExampleRows : List Record :=
  [[("X", CellValue.str "a"), ("Y", CellValue.num 3)],
   [("X", CellValue.str "b"), ("Y", CellValue.str "abc")],
   [("X", CellValue.str "c"), ("Y", CellValue.null)],
   [("X", CellValue.str "d")]]

/-- Witness for `default_transform` on a `bar` chart over rows whose Y-values
are `3`, `"abc"`, `null`, and missing, yielding the series `[3, 0, 0, 0]`. -/
theorem default_transform_witness :
    ("bar" ≠ "pie")
    ∧ ("bar" ≠ "doughnut")
    ∧ ((processChartData coercionExampleRows "bar" ⟨"X", none⟩ ⟨"Y", none⟩ none (some ["#111111"])).labels
          = coercionExampleRows.map (fun r => lookupCell r "X")
      ∧ (processChartData coercionExampleRows "bar" ⟨"X", none⟩ ⟨"Y", none⟩ none (some ["#111111"])).labels.length
          = coercionExampleRows.length
      ∧ (processChartData coercionExampleRows "bar" ⟨"X", none⟩ ⟨"Y", none⟩ none (some ["#111111"])).datasets
          = [{ label := axisDisplay ⟨"Y", none⟩
               data := coercionExampleRows.map (fun r => DataVal.scalar (toNumOr0 (lookupCell r "Y")))
               backgroundColor := ["#111111"]
               borderColor := borderColorOf (some ["#111111"])
               borderWidth := 2 }]
      ∧ toNumOr0 (some (CellValue.str "abc")) = 0
      ∧ toNumOr0 (some CellValue.null) = 0
      ∧ toNumOr0 none = 0)
    ∧ (processChartData coercionExampleRows "bar" ⟨"X", none⟩ ⟨"Y", none⟩ none (some ["#111111"])).datasets.map
          (fun ds => ds.data)
        = [[DataVal.scalar 3, DataVal.scalar 0, DataVal.scalar 0, DataVal.scalar 0]] :=
  ⟨fun h => by simp at h, fun h => by simp at h,
   default_transform coercionExampleRows "bar" ⟨"X", none⟩ ⟨"Y", none⟩ ["#111111"]
     (fun h => by simp at h) (fun h => by simp at h),
   by
    simp [processChartData, coercionExampleRows, lookupCell, toNumOr0, parseCell,
      parseFloatQ, parseDecimal, axisDisplay, borderColorOf]⟩

/-- Two rows with numeric X, Y and Z columns; the second row's X value is the
number `0`. -/
def zeroXExampleRows : List Record :=
  [[("X", CellValue.num 5), ("Y", CellValue.num 1), ("Z", CellValue.num 2)],
   [("X", CellValue.num 0), ("Y", CellValue.num 3), ("Z", CellValue.num 4)]]

/-- Counterexample to C5 as stated.  First conjunct: with a Z-axis present,
the triple of the second row is `{x: 1, y: 3, z: 4}` — the positional index
`1` is used for `x` even though the X value `0` is numeric (in JS
`parseFloat(0) || index` falls back on `0` because `0` is falsy), so `x` is
not the coerced X value there.  Second conjunct: for chart type `pie` the
aggregation branch runs after the 3-D branch and replaces the triples with
plain aggregated sums (`[3, 1]`: the property keys `"0"` and `"5"` enumerate
in ascending numeric order), so a Z-axis selection does not produce triples
regardless of the declared chart type. -/
theorem threeD_triples_counterexample :
    ((processChartData zeroXExampleRows "scatter" ⟨"X", none⟩ ⟨"Y", none⟩
          (some ⟨"Z", none⟩) none).datasets.map (fun ds => ds.data)
        = [[DataVal.point3 5 1 2, DataVal.point3 1 3 4]]
      ∧ toNumOr0 (lookupCell [("X", CellValue.num 0), ("Y", CellValue.num 3), ("Z", CellValue.num 4)] "X") = 0
      ∧ DataVal.point3 1 3 4 ≠ DataVal.point3 0 3 4)
    ∧ (processChartData zeroXExampleRows "pie" ⟨"X", none⟩ ⟨"Y", none⟩
          (some ⟨"Z", none⟩) none).datasets.map (fun ds => ds.data)
        = [[DataVal.scalar 3, DataVal.scalar 1]] := by
  have hr5 : renderCell (some (CellValue.num 5)) = "5" := by decide
  have hr0 : renderCell (some (CellValue.num 0)) = "0" := by decide
  have hord : objectEntries [("5", (1 : ℚ)), ("0", (3 : ℚ))] = [("0", 3), ("5", 1)] := by
    decide
  refine ⟨⟨?_, ?_, ?_⟩, ?_⟩
  · simp [processChartData, zeroXExampleRows, lookupCell, toNumOr0, toNumOrIdx, parseCell,
      setData0, setBackground0, List.enum]
  · simp [lookupCell, toNumOr0, parseCell]
  · intro h
    have := (DataVal.point3.injEq 1 3 4 0 3 4).mp h
    norm_num at this
  · simp [processChartData, zeroXExampleRows, aggregate, addToAgg, lookupCell, toNumOr0,
      parseCell, setData0, setBackground0, hr5, hr0, hord]

/-- C5 (amended): for chart types other than `pie`/`doughnut`, when a Z-axis
selection with a nonempty column name is present the single series' values
are per-record `{x, y, z}` triples in record order, with `y` and `z` the
coerced Y and Z values (`0` on failure) and `x` the coerced X value except
that the positional index is substituted when the X value is non-numeric or
coerces to `0` (JS `parseFloat(x) || index`). -/
theorem threeD_triples (data : List Record) (chartType : String) (xAxis yAxis zAxis : Axis)
    (colors : Option (List String)) (h1 : chartType ≠ "pie") (h2 : chartType ≠ "doughnut")
    (hz : zAxis.column ≠ "") :
    (processChartData data chartType xAxis yAxis (some zAxis) colors).datasets.map
        (fun ds => ds.data)
      = [data.enum.map (fun p =>
          DataVal.point3 (toNumOrIdx (lookupCell p.2 xAxis.column) p.1)
            (toNumOr0 (lookupCell p.2 yAxis.column)) (toNumOr0 (lookupCell p.2 zAxis.column)))] := by
  have hp : ¬(chartType = "pie" ∨ chartType = "doughnut") := fun h => h.elim h1 h2
  simp only [processChartData, hp, if_false, hz, ite_false, setData0, List.map_cons,
    List.map_nil, if_neg, reduceIte]
  rw [map_enum_point3_getD data (fun r => toNumOr0 (lookupCell r yAxis.column))
    (fun r => toNumOr0 (lookupCell r zAxis.column))
    (fun i r => toNumOrIdx (lookupCell r xAxis.column) i)]

/-- Witness for `threeD_triples` on the two-row example: the series is the
triple list `[{5, 1, 2}, {1, 3, 4}]`. -/
theorem threeD_triples_witness :
    ("scatter" ≠ "pie")
    ∧ ("scatter" ≠ "doughnut")
    ∧ (Axis.mk "Z" none).column ≠ ""
    ∧ (processChartData zeroXExampleRows "scatter" ⟨"X", none⟩ ⟨"Y", none⟩
          (some ⟨"Z", none⟩) none).datasets.map (fun ds => ds.data)
        = [zeroXExampleRows.enum.map (fun p =>
            DataVal.point3 (toNumOrIdx (lookupCell p.2 "X") p.1)
              (toNumOr0 (lookupCell p.2 "Y")) (toNumOr0 (lookupCell p.2 "Z")))] :=
  ⟨fun h => by simp at h, fun h => by simp at h, fun h => by simp at h,
   threeD_triples zeroXExampleRows "scatter" ⟨"X", none⟩ ⟨"Y", none⟩ ⟨"Z", none⟩ none
     (fun h => by simp at h) (fun h => by simp at h) (fun h => by simp at h)⟩

lemma zip_yvalues_filter_fst (data : List Record) (yc : String) (p : ℚ → Bool) :
    ((data.zip (yValuesOf data yc)).filter (fun q => p q.2)).map Prod.fst
      = data.filter (fun r => p (toNumOr0 (lookupCell r yc))) := by
  simpa [yValuesOf] using zip_map_filter_fst data (fun r => toNumOr0 (lookupCell r yc)) p

lemma generateInsights_outliers (data : List Record) (xA yA : Axis) (zA : Option Axis) :
    (generateInsights data xA yA zA).outliers =
      (data.filter (fun r =>
          decide (isOutlierIn (yValuesOf data yA.column) (toNumOr0 (lookupCell r yA.column))))).map
        (fun r => renderCell (lookupCell r xA.column) ++ ": " ++ renderCell (lookupCell r yA.column)) := by
  simp only [generateInsights]
  have hfold : data.map (fun row => toNumOr0 (lookupCell row yA.column))
      = yValuesOf data yA.column := rfl
  simp only [hfold]
  have hmean : List.foldl (· + ·) 0 (yValuesOf data yA.column) / ((yValuesOf data yA.column).length : ℚ)
      = meanOf (yValuesOf data yA.column) := by
    rw [foldl_add_eq_sum, zero_add, meanOf]
  simp only [hmean]
  have hvar : List.foldl (fun s v => s + (v - meanOf (yValuesOf data yA.column)) ^ 2) 0
        (yValuesOf data yA.column) / ((yValuesOf data yA.column).length : ℚ)
      = popVariance (yValuesOf data yA.column) := by
    rw [foldl_add_map_eq_sum, zero_add, popVariance]
  simp only [hvar]
  rw [zip_yvalues_filter_fst data yA.column
    (fun v => decide (4 * popVariance (yValuesOf data yA.column)
      < (v - meanOf (yValuesOf data yA.column)) ^ 2))]
  simp only [isOutlierIn]
  by_cases hlen : 0 < (data.filter (fun r =>
      decide (4 * popVariance (yValuesOf data yA.column)
        < (toNumOr0 (lookupCell r yA.column) - meanOf (yValuesOf data yA.column)) ^ 2))).length
  · rw [if_pos hlen]
  · rw [if_neg hlen]
    have hnil := List.length_eq_zero.mp (Nat.eq_zero_of_not_pos hlen)
    rw [hnil]
    rfl

lemma generateInsights_trends (data : List Record) (xA yA : Axis) (zA : Option Axis) :
    (generateInsights data xA yA zA).trends =
      if 1 < data.length then [trendClass (yValuesOf data yA.column)] else [] := by
  simp only [generateInsights, trendClass]
  have hfold : data.map (fun row => toNumOr0 (lookupCell row yA.column))
      = yValuesOf data yA.column := rfl
  simp only [hfold]
  have h1 : ∀ (l : List ℚ), List.foldl (· + ·) 0 l / (l.length : ℚ) = meanOf l := fun l => by
    rw [foldl_add_eq_sum, zero_add, meanOf]
  simp only [h1]
  have hc : (yValuesOf data yA.column).length = data.length := by simp [yValuesOf]
  simp only [hc]
  have hsing : ∀ (c : Prop) (inst : Decidable c) (a b : String),
      (@ite String c inst a b) :: ([] : List String) = @ite (List String) c inst [a] [b] := by
    intro c inst a b
    by_cases h : c
    · simp [h]
    · simp [h]
  simp only [hsing]

/-- Five rows whose Y-values are `[1, 1, 1, 1, 100]`. -/
def outlierBoundaryRows : List Record :=
  [[("X", CellValue.str "a"), ("Y", CellValue.num 1)],
   [("X", CellValue.str "b"), ("Y", CellValue.num 1)],
   [("X", CellValue.str "c"), ("Y", CellValue.num 1)],
   [("X", CellValue.str "d"), ("Y", CellValue.num 1)],
   [("X", CellValue.str "e"), ("Y", CellValue.num 100)]]

/-- Five rows whose Y-values are `[1, 2, 3, 4, 5]`. -/
def noOutlierRows : List Record :=
  [[("X", CellValue.str "a"), ("Y", CellValue.num 1)],
   [("X", CellValue.str "b"), ("Y", CellValue.num 2)],
   [("X", CellValue.str "c"), ("Y", CellValue.num 3)],
   [("X", CellValue.str "d"), ("Y", CellValue.num 4)],
   [("X", CellValue.str "e"), ("Y", CellValue.num 5)]]

/-- Six rows whose Y-values are `[1, 1, 1, 1, 1, 100]`; here the `100` does
exceed the two-standard-deviation threshold. -/
def outlierFlaggedRows : List Record :=
  [[("X", CellValue.str "a"), ("Y", CellValue.num 1)],
   [("X", CellValue.str "b"), ("Y", CellValue.num 1)],
   [("X", CellValue.str "c"), ("Y", CellValue.num 1)],
   [("X", CellValue.str "d"), ("Y", CellValue.num 1)],
   [("X", CellValue.str "e"), ("Y", CellValue.num 1)],
   [("X", CellValue.str "f"), ("Y", CellValue.num 100)]]

/-- Counterexample to C1 as stated: for Y-values `[1, 1, 1, 1, 100]` the
outlier list is empty — the deviation of `100` from the mean `20.8` is
`79.2`, which equals exactly two population standard deviations
(`σ = 39.6`), and the source compares with strict `>`.  The second conjunct
exhibits the exact boundary equality. -/
theorem outlier_example_counterexample :
    (generateInsights outlierBoundaryRows ⟨"X", none⟩ ⟨"Y", none⟩ none).outliers = []
    ∧ (100 - meanOf (yValuesOf outlierBoundaryRows "Y")) ^ 2
        = 4 * popVariance (yValuesOf outlierBoundaryRows "Y") := by
  constructor
  · rw [generateInsights_outliers]
    simp [outlierBoundaryRows, yValuesOf, lookupCell, toNumOr0, parseCell, isOutlierIn,
      popVariance, meanOf]
    norm_num
  · simp [outlierBoundaryRows, yValuesOf, lookupCell, toNumOr0, parseCell, popVariance, meanOf]
    norm_num

/-- C1 (amended): for every non-empty record list, the outlier list contains
exactly those records whose coerced Y-value deviates from the mean by more
than two population standard deviations (stated in squared form), rendered as
`"<X-value>: <Y-value>"` in original record order; for Y-values
`[1, 1, 1, 1, 100]` no record is flagged (the deviation of `100` equals
exactly two standard deviations and the comparison is strict), and for
`[1, 2, 3, 4, 5]` no record is flagged. -/
theorem outlier_characterization :
    (∀ (data : List Record) (xA yA : Axis) (zA : Option Axis), data ≠ [] →
      (generateInsights data xA yA zA).outliers =
        (data.filter (fun r =>
            decide (isOutlierIn (yValuesOf data yA.column) (toNumOr0 (lookupCell r yA.column))))).map
          (fun r => renderCell (lookupCell r xA.column) ++ ": " ++ renderCell (lookupCell r yA.column)))
    ∧ (generateInsights outlierBoundaryRows ⟨"X", none⟩ ⟨"Y", none⟩ none).outliers = []
    ∧ (generateInsights noOutlierRows ⟨"X", none⟩ ⟨"Y", none⟩ none).outliers = [] := by
  refine ⟨fun data xA yA zA _ => generateInsights_outliers data xA yA zA, ?_, ?_⟩
  · rw [generateInsights_outliers]
    simp [outlierBoundaryRows, yValuesOf, lookupCell, toNumOr0, parseCell, isOutlierIn,
      popVariance, meanOf]
    norm_num
  · rw [generateInsights_outliers]
    simp [noOutlierRows, yValuesOf, lookupCell, toNumOr0, parseCell, isOutlierIn,
      popVariance, meanOf]
    norm_num

/-- Witness for `outlier_characterization`: at the six-row list with Y-values
`[1, 1, 1, 1, 1, 100]` the characterization applies and both sides evaluate
to the single rendered outlier `"f: 100"`. -/
theorem outlier_characterization_witness :
    outlierFlaggedRows ≠ []
    ∧ (generateInsights outlierFlaggedRows ⟨"X", none⟩ ⟨"Y", none⟩ none).outliers =
        (outlierFlaggedRows.filter (fun r =>
            decide (isOutlierIn (yValuesOf outlierFlaggedRows "Y") (toNumOr0 (lookupCell r "Y"))))).map
          (fun r => renderCell (lookupCell r "X") ++ ": " ++ renderCell (lookupCell r "Y"))
    ∧ (generateInsights outlierFlaggedRows ⟨"X", none⟩ ⟨"Y", none⟩ none).outliers = ["f: 100"] :=
  ⟨fun h => by simp [outlierFlaggedRows] at h,
   outlier_characterization.1 outlierFlaggedRows ⟨"X", none⟩ ⟨"Y", none⟩ none
     (fun h => by simp [outlierFlaggedRows] at h),
   by
    rw [generateInsights_outliers]
    have hys : yValuesOf outlierFlaggedRows "Y" = [1, 1, 1, 1, 1, 100] := by
      simp [yValuesOf, outlierFlaggedRows, lookupCell, toNumOr0, parseCell]
    rw [hys]
    have hm : meanOf [(1 : ℚ), 1, 1, 1, 1, 100] = 35 / 2 := by
      norm_num [meanOf]
    have hv : popVariance [(1 : ℚ), 1, 1, 1, 1, 100] = 5445 / 4 := by
      norm_num [popVariance, meanOf]
    simp only [isOutlierIn, hm, hv]
    simp [outlierFlaggedRows, List.filter_cons, lookupCell, toNumOr0, parseCell]
    norm_num
    simp [renderCell]
    decide⟩

/-- Four rows whose Y-values are `[10, 10, 10, 10]`. -/
def stableRows : List Record :=
  [[("X", CellValue.num 1), ("Y", CellValue.num 10)],
   [("X", CellValue.num 2), ("Y", CellValue.num 10)],
   [("X", CellValue.num 3), ("Y", CellValue.num 10)],
   [("X", CellValue.num 4), ("Y", CellValue.num 10)]]

/-- Four rows whose Y-values are `[1, 1, 9, 9]`. -/
def upwardRows : List Record :=
  [[("X", CellValue.num 1), ("Y", CellValue.num 1)],
   [("X", CellValue.num 2), ("Y", CellValue.num 1)],
   [("X", CellValue.num 3), ("Y", CellValue.num 9)],
   [("X", CellValue.num 4), ("Y", CellValue.num 9)]]

/-- Four rows whose Y-values are `[9, 9, 1, 1]`. -/
def downwardRows : List Record :=
  [[("X", CellValue.num 1), ("Y", CellValue.num 9)],
   [("X", CellValue.num 2), ("Y", CellValue.num 9)],
   [("X", CellValue.num 3), ("Y", CellValue.num 1)],
   [("X", CellValue.num 4), ("Y", CellValue.num 1)]]

/-- Two rows whose Y-values are `[10, 9]`: the second-half mean `9` is
exactly 90% of the first-half mean `10`. -/
def boundaryTrendRows : List Record :=
  [[("X", CellValue.num 1), ("Y", CellValue.num 10)],
   [("X", CellValue.num 2), ("Y", CellValue.num 9)]]

/-- Counterexample to C2 as stated: with Y-values `[10, 9]` the second-half
mean (`9`) is less than or equal to 90% of the first-half mean (`10`), so the
claim's parenthetical "second mean ≤ 90% of the first" reading classifies
downward; the source compares with strict `<` and classifies
"Relatively stable". -/
theorem trend_boundary_counterexample :
    (generateInsights boundaryTrendRows ⟨"X", none⟩ ⟨"Y", none⟩ none).trends
        = ["Relatively stable trend in the data"]
    ∧ meanOf ((yValuesOf boundaryTrendRows "Y").drop
          ((yValuesOf boundaryTrendRows "Y").length / 2))
        ≤ (9 / 10) * meanOf ((yValuesOf boundaryTrendRows "Y").take
          ((yValuesOf boundaryTrendRows "Y").length / 2)) := by
  constructor
  · rw [generateInsights_trends]
    simp [boundaryTrendRows, yValuesOf, lookupCell, toNumOr0, parseCell, trendClass, meanOf]
    norm_num
  · simp [boundaryTrendRows, yValuesOf, lookupCell, toNumOr0, parseCell, meanOf]

/-- C2 (amended): with at least two records exactly one trend string is
produced, determined by splitting the Y-values at `floor(n / 2)`: "upward"
when the second half's mean strictly exceeds 1.1 times the first half's mean,
"downward" when it is strictly below 0.9 times the first half's mean (at
exactly 90% the classification is "stable", the comparison being strict), and
"stable" otherwise; with fewer than two records no trend string is produced.
The classification is stable for Y-values `[10, 10, 10, 10]`, upward for
`[1, 1, 9, 9]`, and downward for `[9, 9, 1, 1]`. -/
theorem trend_classification :
    (∀ (data : List Record) (xA yA : Axis) (zA : Option Axis), 2 ≤ data.length →
      (generateInsights data xA yA zA).trends = [trendClass (yValuesOf data yA.column)])
    ∧ (∀ (data : List Record) (xA yA : Axis) (zA : Option Axis), data.length < 2 →
      (generateInsights data xA yA zA).trends = [])
    ∧ (generateInsights stableRows ⟨"X", none⟩ ⟨"Y", none⟩ none).trends
        = ["Relatively stable trend in the data"]
    ∧ (generateInsights upwardRows ⟨"X", none⟩ ⟨"Y", none⟩ none).trends
        = ["Upward trend detected in the data"]
    ∧ (generateInsights downwardRows ⟨"X", none⟩ ⟨"Y", none⟩ none).trends
        = ["Downward trend detected in the data"] := by
  refine ⟨?_, ?_, ?_, ?_, ?_⟩
  · intro data xA yA zA h
    rw [generateInsights_trends, if_pos (by omega)]
  · intro data xA yA zA h
    rw [generateInsights_trends, if_neg (by omega)]
  · rw [generateInsights_trends]
    simp [stableRows, yValuesOf, lookupCell, toNumOr0, parseCell, trendClass, meanOf]
    norm_num
  · rw [generateInsights_trends]
    simp [upwardRows, yValuesOf, lookupCell, toNumOr0, parseCell, trendClass, meanOf]
    norm_num
  · rw [generateInsights_trends]
    simp [downwardRows, yValuesOf, lookupCell, toNumOr0, parseCell, trendClass, meanOf]
    norm_num

/-- Witness for `trend_classification`: at the four stable rows the first
conjunct applies, and at a single row the second conjunct applies. -/
theorem trend_classification_witness :
    2 ≤ stableRows.length
    ∧ (generateInsights stableRows ⟨"X", none⟩ ⟨"Y", none⟩ none).trends
        = [trendClass (yValuesOf stableRows "Y")]
    ∧ ([[("X", CellValue.num 1), ("Y", CellValue.num 7)]] : List Record).length < 2
    ∧ (generateInsights [[("X", CellValue.num 1), ("Y", CellValue.num 7)]] ⟨"X", none⟩ ⟨"Y", none⟩ none).trends
        = [] :=
  ⟨by simp [stableRows],
   trend_classification.1 stableRows ⟨"X", none⟩ ⟨"Y", none⟩ none (by simp [stableRows]),
   by simp,
   trend_classification.2.1 [[("X", CellValue.num 1), ("Y", CellValue.num 7)]]
     ⟨"X", none⟩ ⟨"Y", none⟩ none (by simp)⟩

/-- C3: after ingestion, a fresh upload record is in exactly one of the two
terminal states: `completed` if and only if its worksheets list is non-empty
and its metadata is populated, and `error` if and only if an error message is
recorded and the worksheets list is empty.  The hypothesis that a
successfully decoded workbook carries at least one sheet reflects the
spreadsheet formats the reader accepts, which require at least one sheet. -/
theorem ingestion_terminal_states
    (readResult : Except String (List (String × Sheet)))
    (hnonempty : ∀ wb, readResult = Except.ok wb → wb ≠ []) :
    ((ingestFile freshFileRecord readResult).status = FileStatus.completed
        ↔ (ingestFile freshFileRecord readResult).worksheets ≠ []
          ∧ (ingestFile freshFileRecord readResult).metadata.isSome)
    ∧ ((ingestFile freshFileRecord readResult).status = FileStatus.error
        ↔ (ingestFile freshFileRecord readResult).processingError.isSome
          ∧ (ingestFile freshFileRecord readResult).worksheets = [])
    ∧ ((ingestFile freshFileRecord readResult).status = FileStatus.completed
        ∨ (ingestFile freshFileRecord readResult).status = FileStatus.error) := by
  cases readResult with
  | ok wb =>
    have hwb : wb ≠ [] := hnonempty wb rfl
    refine ⟨?_, ?_, Or.inl rfl⟩
    · simp [ingestFile, freshFileRecord, parseWorkbook, hwb]
    · simp [ingestFile, freshFileRecord]
  | error msg =>
    refine ⟨?_, ?_, Or.inr rfl⟩
    · simp [ingestFile, freshFileRecord]
    · simp [ingestFile, freshFileRecord]

/-- A one-sheet workbook with a single occupied cell at A1. -/
def singleSheetWorkbook : List (String × Sheet) :=
  [("Sheet1", { ref := some ⟨0, 0, 0, 0⟩, cells := [((0, 0), CellValue.str "Name")] })]

/-- Witness for `ingestion_terminal_states` at a one-sheet workbook (success
path) — the record lands in `completed` with one worksheet and populated
metadata. -/
theorem ingestion_terminal_states_witness :
    (∀ wb, (Except.ok singleSheetWorkbook : Except String (List (String × Sheet)))
        = Except.ok wb → wb ≠ [])
    ∧ (((ingestFile freshFileRecord (Except.ok singleSheetWorkbook)).status = FileStatus.completed
          ↔ (ingestFile freshFileRecord (Except.ok singleSheetWorkbook)).worksheets ≠ []
            ∧ (ingestFile freshFileRecord (Except.ok singleSheetWorkbook)).metadata.isSome)
      ∧ ((ingestFile freshFileRecord (Except.ok singleSheetWorkbook)).status = FileStatus.error
          ↔ (ingestFile freshFileRecord (Except.ok singleSheetWorkbook)).processingError.isSome
            ∧ (ingestFile freshFileRecord (Except.ok singleSheetWorkbook)).worksheets = [])
      ∧ ((ingestFile freshFileRecord (Except.ok singleSheetWorkbook)).status = FileStatus.completed
          ∨ (ingestFile freshFileRecord (Except.ok singleSheetWorkbook)).status = FileStatus.error))
    ∧ (ingestFile freshFileRecord (Except.ok singleSheetWorkbook)).status = FileStatus.completed :=
  ⟨fun wb h => by
    cases h
    simp [singleSheetWorkbook],
   ingestion_terminal_states (Except.ok singleSheetWorkbook)
     (fun wb h => by
       cases h
       simp [singleSheetWorkbook]),
   by simp [ingestFile, freshFileRecord]⟩

/-- C7: the parsed worksheet summary has as many column headers as
`columnCount`, both counts being taken from the inclusive range bounds; a
sheet with no occupied cells gets the default range A1:A1 and so reports one
row, one column, and the single synthesized header `"Column 1"`. -/
theorem sheet_summary_shape :
    (∀ (name : String) (s : Sheet), (decodeRange s).sc ≤ (decodeRange s).ec →
      (parseSheet name s).columns.length = (parseSheet name s).columnCount)
    ∧ (∀ (name : String) (s : Sheet),
      (parseSheet name s).rowCount = (decodeRange s).er - (decodeRange s).sr + 1
      ∧ (parseSheet name s).columnCount = (decodeRange s).ec - (decodeRange s).sc + 1)
    ∧ (∀ (name : String),
      parseSheet name { ref := none, cells := [] }
        = { name := name, rowCount := 1, columnCount := 1,
            columns := [CellValue.str "Column 1"] }) := by
  refine ⟨?_, ?_, ?_⟩
  · intro name s h
    simp only [parseSheet, sheetHeaders, List.length_map, List.length_range]
    omega
  · intro name s
    exact ⟨rfl, rfl⟩
  · intro name
    rfl

/-- Witness for `sheet_summary_shape` at a sheet whose range is A1:C2 with a
single occupied cell: three headers are reported (two synthesized), matching
`columnCount = 3`. -/
theorem sheet_summary_shape_witness :
    (decodeRange { ref := some ⟨0, 0, 1, 2⟩, cells := [((0, 0), CellValue.str "Name")] }).sc
        ≤ (decodeRange { ref := some ⟨0, 0, 1, 2⟩, cells := [((0, 0), CellValue.str "Name")] }).ec
    ∧ (parseSheet "S" { ref := some ⟨0, 0, 1, 2⟩, cells := [((0, 0), CellValue.str "Name")] }).columns.length
        = (parseSheet "S" { ref := some ⟨0, 0, 1, 2⟩, cells := [((0, 0), CellValue.str "Name")] }).columnCount
    ∧ (parseSheet "S" { ref := some ⟨0, 0, 1, 2⟩, cells := [((0, 0), CellValue.str "Name")] }).columns
        = [CellValue.str "Name", CellValue.str "Column 2", CellValue.str "Column 3"]
    ∧ parseSheet "Empty" { ref := none, cells := [] }
        = { name := "Empty", rowCount := 1, columnCount := 1,
            columns := [CellValue.str "Column 1"] } :=
  ⟨by decide,
   sheet_summary_shape.1 "S" { ref := some ⟨0, 0, 1, 2⟩, cells := [((0, 0), CellValue.str "Name")] }
     (by decide),
   by decide,
   sheet_summary_shape.2.2 "Empty"⟩

/-- C8: the worksheet data endpoint fails with `fileNotReady` whenever the
file's status is not `completed`, fails with `worksheetNotFound` whenever the
name matches no sheet, and otherwise returns the sheet's rows together with a
column list equal to the key list of the first record — empty for an empty
sheet. -/
theorem worksheet_reader_contract (file : FileRecord) (wb : DataWorkbook) (name : String) :
    (file.status ≠ FileStatus.completed →
      getWorksheetData file wb name = Except.error ReadError.fileNotReady)
    ∧ (file.status = FileStatus.completed → name ∉ wb.sheetNames →
      getWorksheetData file wb name = Except.error ReadError.worksheetNotFound)
    ∧ (file.status = FileStatus.completed → name ∈ wb.sheetNames →
      getWorksheetData file wb name = Except.ok
        { worksheetName := name
          data := (lookupSheet wb.sheets name).getD []
          rowCount := ((lookupSheet wb.sheets name).getD []).length
          columns := (((lookupSheet wb.sheets name).getD []).headD []).map Prod.fst })
    ∧ (∀ wd, getWorksheetData file wb name = Except.ok wd → wd.data = [] → wd.columns = []) := by
  refine ⟨?_, ?_, ?_, ?_⟩
  · intro h
    simp [getWorksheetData, h]
  · intro h1 h2
    simp [getWorksheetData, h1, h2]
  · intro h1 h2
    simp [getWorksheetData, h1, h2]
  · intro wd hok hdata
    by_cases h1 : file.status = FileStatus.completed
    · by_cases h2 : name ∈ wb.sheetNames
      · simp [getWorksheetData, h1, h2] at hok
        have hemp : (lookupSheet wb.sheets name).getD [] = [] := by
          have hd := hdata
          rw [← hok] at hd
          simpa using hd
        rw [← hok]
        simp [hemp]
      · simp [getWorksheetData, h1, h2] at hok
    · simp [getWorksheetData, h1] at hok

/-- A ready file record with one parsed worksheet. -/
def readyFileRecord : FileRecord :=
  { status := FileStatus.completed
    processingError := none
    worksheets := [{ name := "Sales", rowCount := 2, columnCount := 2,
                     columns := [CellValue.str "Region", CellValue.str "Revenue"] }]
    metadata := some { totalRows := 2, totalColumns := some 2, worksheetCount := 1 } }

/-- A one-sheet data workbook holding the pie example rows. -/
def salesWorkbook : DataWorkbook :=
  { sheets := [("Sales", pieExampleRows)] }

/-- Witness for `worksheet_reader_contract`: reading sheet `Sales` of a
completed file succeeds with the first record's keys as columns. -/
theorem worksheet_reader_contract_witness :
    readyFileRecord.status = FileStatus.completed
    ∧ "Sales" ∈ salesWorkbook.sheetNames
    ∧ getWorksheetData readyFileRecord salesWorkbook "Sales" = Except.ok
        { worksheetName := "Sales"
          data := (lookupSheet salesWorkbook.sheets "Sales").getD []
          rowCount := ((lookupSheet salesWorkbook.sheets "Sales").getD []).length
          columns := (((lookupSheet salesWorkbook.sheets "Sales").getD []).headD []).map Prod.fst }
    ∧ (getWorksheetData readyFileRecord salesWorkbook "Sales").toOption.map
        (fun wd => wd.columns) = some ["Region", "Revenue"]
    ∧ getWorksheetData { readyFileRecord with status := FileStatus.processing }
        salesWorkbook "Sales" = Except.error ReadError.fileNotReady
    ∧ getWorksheetData readyFileRecord salesWorkbook "Nope"
        = Except.error ReadError.worksheetNotFound :=
  ⟨rfl,
   by simp [salesWorkbook, DataWorkbook.sheetNames],
   (worksheet_reader_contract readyFileRecord salesWorkbook "Sales").2.2.1 rfl
     (by simp [salesWorkbook, DataWorkbook.sheetNames]),
   by
    simp [getWorksheetData, readyFileRecord, salesWorkbook, DataWorkbook.sheetNames,
      lookupSheet, pieExampleRows]
    exact ⟨_, rfl, rfl⟩,
   by simp [getWorksheetData, readyFileRecord],
   by simp [getWorksheetData, readyFileRecord, salesWorkbook, DataWorkbook.sheetNames]⟩

/-- C9: reading an analytics record increments only its view counter, and an
update request can change only the title, colors, bookmark flag and share
settings — chart type, axis selections, chart data, insights, the view
counter and the identity references are never touched by an update. -/
theorem analytics_mutation_frame (a : AnalyticsRecord) (req : UpdateRequest) :
    (readAnalytics a).viewCount = a.viewCount + 1
    ∧ (readAnalytics a).chartType = a.chartType
    ∧ (readAnalytics a).chartConfig = a.chartConfig
    ∧ (readAnalytics a).chartData = a.chartData
    ∧ (readAnalytics a).insights = a.insights
    ∧ (readAnalytics a).fileId = a.fileId
    ∧ (readAnalytics a).userId = a.userId
    ∧ (readAnalytics a).isBookmarked = a.isBookmarked
    ∧ (readAnalytics a).shareSettings = a.shareSettings
    ∧ (readAnalytics a).downloadCount = a.downloadCount
    ∧ (updateAnalytics req a).chartType = a.chartType
    ∧ (updateAnalytics req a).chartConfig.xAxis = a.chartConfig.xAxis
    ∧ (updateAnalytics req a).chartConfig.yAxis = a.chartConfig.yAxis
    ∧ (updateAnalytics req a).chartConfig.zAxis = a.chartConfig.zAxis
    ∧ (updateAnalytics req a).chartData = a.chartData
    ∧ (updateAnalytics req a).insights = a.insights
    ∧ (updateAnalytics req a).viewCount = a.viewCount
    ∧ (updateAnalytics req a).fileId = a.fileId
    ∧ (updateAnalytics req a).userId = a.userId
    ∧ (updateAnalytics req a).downloadCount = a.downloadCount := by
  obtain ⟨t, c, b, s⟩ := req
  refine ⟨rfl, rfl, rfl, rfl, rfl, rfl, rfl, rfl, rfl, rfl, ?_, ?_, ?_, ?_, ?_, ?_, ?_, ?_, ?_, ?_⟩ <;>
    (cases t with
     | none => cases c <;> cases b <;> cases s <;> simp [updateAnalytics]
     | some t0 =>
        by_cases ht : t0 = "" <;> cases c <;> cases b <;> cases s <;> simp [updateAnalytics, ht])

/-- C10: when `createChart` is invoked with the worksheet name absent or
empty, it resolves the workbook's first sheet in file order and succeeds,
deriving the chart data and insights from that first sheet's records (given
that the file is processed, the sheet is non-empty and the selected columns
exist there, as on any direct invocation). -/
theorem createChart_default_sheet (file : FileRecord) (wb : DataWorkbook)
    (fileId userId : String) (req : ChartRequest)
    (hstatus : file.status = FileStatus.completed)
    (hname : req.worksheetName = none ∨ req.worksheetName = some "")
    (n₀ : String) (d₀ : List Record) (rest : List (String × List Record))
    (hwb : wb.sheets = (n₀, d₀) :: rest)
    (hdata : d₀ ≠ [])
    (hx : req.xAxis.column ∈ (d₀.headD []).map Prod.fst)
    (hy : req.yAxis.column ∈ (d₀.headD []).map Prod.fst)
    (hz : ∀ z, req.zAxis = some z → z.column ≠ "" → z.column ∈ (d₀.headD []).map Prod.fst) :
    (createChart file wb fileId userId req).toOption.map (fun r => (r.chartData, r.insights))
      = some (processChartData d₀ req.chartType req.xAxis req.yAxis req.zAxis req.colors,
              generateInsights d₀ req.xAxis req.yAxis req.zAxis) := by
  have hsheetName : (match req.worksheetName with
      | some n => if n = "" then wb.sheetNames.headD "" else n
      | none => wb.sheetNames.headD "") = n₀ := by
    rcases hname with h | h <;> simp [h, DataWorkbook.sheetNames, hwb]
  have hlk : lookupSheet wb.sheets (match req.worksheetName with
      | some n => if n = "" then wb.sheetNames.headD "" else n
      | none => wb.sheetNames.headD "") = some d₀ := by
    rw [hsheetName, hwb]
    simp [lookupSheet]
  simp only [createChart, hstatus]
  rw [hlk]
  cases hzz : req.zAxis with
  | none =>
    simp [hdata]
    rw [if_pos hx, if_pos hy]
    exact ⟨_, rfl, rfl, rfl⟩
  | some z =>
    simp [hdata]
    rw [if_pos hx, if_pos hy]
    by_cases hzc : z.column = ""
    · rw [if_neg (fun h => absurd hzc h.1)]
      exact ⟨_, rfl, rfl, rfl⟩
    · rw [if_neg (fun h => h.2 (hz z hzz hzc))]
      exact ⟨_, rfl, rfl, rfl⟩

/-- The chart request of the witness: no worksheet name, a `bar` chart of
Revenue by Region. -/
def defaultSheetRequest : ChartRequest :=
  { chartType := "bar"
    xAxis := ⟨"Region", none⟩
    yAxis := ⟨"Revenue", none⟩
    zAxis := none
    title := none
    colors := none
    worksheetName := none }

/-- Witness for `createChart_default_sheet`: with no worksheet name the chart
is built from the `Sales` sheet (the workbook's only and first sheet). -/
theorem createChart_default_sheet_witness :
    readyFileRecord.status = FileStatus.completed
    ∧ (defaultSheetRequest.worksheetName = none ∨ defaultSheetRequest.worksheetName = some "")
    ∧ salesWorkbook.sheets = ("Sales", pieExampleRows) :: []
    ∧ pieExampleRows ≠ []
    ∧ (createChart readyFileRecord salesWorkbook "file1" "user1" defaultSheetRequest).toOption.map
        (fun r => (r.chartData, r.insights))
      = some (processChartData pieExampleRows defaultSheetRequest.chartType
                defaultSheetRequest.xAxis defaultSheetRequest.yAxis
                defaultSheetRequest.zAxis defaultSheetRequest.colors,
              generateInsights pieExampleRows defaultSheetRequest.xAxis
                defaultSheetRequest.yAxis defaultSheetRequest.zAxis) :=
  ⟨rfl, Or.inl rfl, rfl, fun h => by simp [pieExampleRows] at h,
   createChart_default_sheet readyFileRecord salesWorkbook "file1" "user1" defaultSheetRequest
     rfl (Or.inl rfl) "Sales" pieExampleRows [] rfl
     (fun h => by simp [pieExampleRows] at h)
     (by simp [defaultSheetRequest, pieExampleRows])
     (by simp [defaultSheetRequest, pieExampleRows])
     (fun z h => by simp [defaultSheetRequest] at h)⟩
